import Mathlib

/-!
Shallow embedding of the NssLens backend (src/NSSSS/app.py): a Flask
application with a registration handler, a photo-submission handler, an
extension whitelist check, and werkzeug filename sanitisation.  HTTP
handlers are modelled as pure functions from an application state and a
parsed form to a response paired with the next state; the two failure
points (file save, database commit) are modelled by `Option String`
oracles carrying the exception message (`none` = the operation succeeds).
-/

namespace NssLens

/-- Python truthiness of an optional form field: `data.get(k)` is falsy
when the key is absent (`None`) or the value is the empty string. -/
def truthy : Option String → Bool
  | none => false
  | some s => s != ""

/-- Python semantics of `re.match` with the raw pattern
`^[0-9]{2}[A-Z]{3}[0-9]{4}$` on the 9-character core: 2 digits, 3
uppercase letters, 4 digits. -/
def vitCore : List Char → Bool
  | [a, b, c, d, e, f, g, h, i] =>
    a.isDigit && b.isDigit && c.isUpper && d.isUpper && e.isUpper &&
    f.isDigit && g.isDigit && h.isDigit && i.isDigit
  | _ => false

/-- Full Python semantics of the check at app.py:79 and app.py:120.  In
Python, `$` matches at the end of the string or just before a newline at
the end of the string, so the pattern also accepts the 9-character core
followed by a single trailing newline. -/
def pyMatchVitId (s : String) : Bool :=
  vitCore s.data || (s.data.getLast? == some '\n' && vitCore s.data.dropLast)

/-- Definition taken from the spec words, for comparison with the code:
"exactly 2 digits, 3 uppercase letters, 4 digits and nothing else". -/
def specExactVitId (s : String) : Bool :=
  vitCore s.data

/-- ALLOWED_EXTENSIONS = the set of image extensions (app.py:19). -/
def ALLOWED_EXTENSIONS : List String := ["png", "jpg", "jpeg"]

/-- Python `rsplit` on the dot with maxsplit 1, second component: the
characters after the last dot (meaningful when a dot occurs in the
list). -/
def extAfterLastDot (l : List Char) : List Char :=
  (l.reverse.takeWhile (fun c => !(c == '.'))).reverse

/-- allowed_file (app.py:21-23): the filename contains a dot and the
substring after its last dot, lowercased, is an allowed extension. -/
def allowed_file (filename : String) : Bool :=
  filename.data.contains '.' &&
    ALLOWED_EXTENSIONS.contains (String.mk ((extAfterLastDot filename.data).map Char.toLower))

/-! ### werkzeug.utils.secure_filename

On a POSIX host (`os.sep` is the slash, `os.path.altsep = None`, and the
Windows device-file branch is inactive) the function is: NFKD-normalise,
encode to ASCII
dropping the rest, replace `/` by a space, split on whitespace and join
the pieces with `_`, delete every character outside `[A-Za-z0-9_.-]`,
and strip leading and trailing `.` and `_`.  NFKD is the identity on
ASCII characters, so the model below is exact on ASCII input. -/

/-- A character surviving `filename.encode("ascii", "ignore")`. -/
def isAsciiChar (c : Char) : Bool := c.toNat < 128

/-- The `filename.replace(os.sep, " ")` step. -/
def sepToSpace (c : Char) : Char := if c == '/' then ' ' else c

/-- ASCII whitespace recognised by `str.split()` (after the ASCII encode
step only these can remain). -/
def isPySpace (c : Char) : Bool :=
  c == ' ' || c == '\t' || c == '\n' || c == '\r' || c == '\x0b' || c == '\x0c'

/-- A character kept by `_filename_ascii_strip_re`: `[A-Za-z0-9_.-]`. -/
def allowedFnameChar (c : Char) : Bool :=
  c.isAlphanum || c == '_' || c == '.' || c == '-'

/-- A character removed from both ends by `.strip("._")`. -/
def isStripChar (c : Char) : Bool := c == '.' || c == '_'

/-- Python `str.split()`: split on runs of whitespace, dropping empty
pieces; `acc` holds the current piece reversed. -/
def splitWsAux (acc : List Char) : List Char → List (List Char)
  | [] => if acc.isEmpty then [] else [acc.reverse]
  | c :: cs =>
    if isPySpace c then
      if acc.isEmpty then splitWsAux [] cs else acc.reverse :: splitWsAux [] cs
    else splitWsAux (c :: acc) cs

/-- Python `str.split()` on a character list. -/
def splitWs (l : List Char) : List (List Char) := splitWsAux [] l

/-- Python `"_".join(pieces)`. -/
def joinUnderscore : List (List Char) → List Char
  | [] => []
  | [g] => g
  | g :: gs => g ++ '_' :: joinUnderscore gs

/-- Remove the trailing run of `.`/`_` characters (right half of
`.strip("._")`). -/
def dropTrailingStrip : List Char → List Char
  | [] => []
  | c :: cs =>
    let rest := dropTrailingStrip cs
    if rest.isEmpty && isStripChar c then [] else c :: rest

/-- werkzeug `secure_filename`, exact for ASCII input (see section
comment). -/
def secure_filename (s : String) : String :=
  String.mk
    (dropTrailingStrip
      ((joinUnderscore (splitWs ((s.data.filter isAsciiChar).map sepToSpace))).filter
          allowedFnameChar |>.dropWhile isStripChar))

/-! ### Data model

`id` (auto-increment) and `timestamp` (server-assigned default) are
store-assigned columns carrying no request data; the rows below model the
request-derived columns. -/

/-- A row of the User table (app.py:26-31). -/
structure User where
  full_name : String
  vit_id : String
  email : String
  password : String
  deriving Repr, DecidableEq

/-- A row of the PhotoSubmission table (app.py:36-44). -/
structure PhotoSubmission where
  full_name : String
  vit_id : String
  photo_title : String
  theme : String
  description : Option String
  photo_filename : String
  deriving Repr, DecidableEq

/-- The persistent state: the two tables, plus the set of filenames
present in the upload directory, as a duplicate-free list. -/
structure AppState where
  users : List User
  photos : List PhotoSubmission
  disk : List String
  deriving Repr, DecidableEq

/-- An HTTP response: status code and JSON message. -/
structure Resp where
  status : Nat
  message : String
  deriving Repr, DecidableEq

/-- The parsed form of a POST /register request; `none` = field absent. -/
structure RegForm where
  fullName : Option String
  vitId : Option String
  email : Option String
  password : Option String
  confirmPassword : Option String
  deriving Repr, DecidableEq

/-- The parsed form of a POST /submit_photo request; `photoFile` is the
client-supplied filename of the file part (`none` = no `photoFile` part
in `request.files`, `some ""` = a part with an empty filename, which is
how a form with no selected file arrives). -/
structure PhotoForm where
  fullName : Option String
  vitId : Option String
  photoTitle : Option String
  theme : Option String
  description : Option String
  photoFile : Option String
  deriving Repr, DecidableEq

/-- `photo_file.save(file_path)`: writes the file, overwriting a previous
file of the same name (the set of names on disk gains `f`). -/
def saveFile (disk : List String) (f : String) : List String :=
  if disk.contains f then disk else disk ++ [f]

/-- `if os.path.exists(file_path): os.remove(file_path)` (app.py:161-162). -/
def removeIfExists (disk : List String) (f : String) : List String :=
  if disk.contains f then disk.filter (fun g => g != f) else disk

/-- The register handler (app.py:61-102).  `commitErr` is the
`db.session.commit()` oracle: `none` = success, `some e` = the commit
raises with message `e` (the handler then rolls back, leaving the table
unchanged). -/
def register (st : AppState) (form : RegForm) (commitErr : Option String) :
    Resp × AppState :=
  if !(truthy form.fullName && truthy form.vitId && truthy form.email &&
       truthy form.password && truthy form.confirmPassword) then
    (⟨400, "All fields are required!"⟩, st)
  else if form.password.getD "" != form.confirmPassword.getD "" then
    (⟨400, "Passwords do not match!"⟩, st)
  else if !pyMatchVitId (form.vitId.getD "") then
    (⟨400, "Invalid VIT ID format."⟩, st)
  else if st.users.any (fun u => u.vit_id == form.vitId.getD "") ||
          st.users.any (fun u => u.email == form.email.getD "") then
    (⟨409, "User with this VIT ID or Email already exists!"⟩, st)
  else
    match commitErr with
    | some e => (⟨500, "Error registering user: " ++ e⟩, st)
    | none =>
      (⟨201, "Registration successful!"⟩,
       { st with
          users := st.users ++
            [⟨form.fullName.getD "", form.vitId.getD "", form.email.getD "",
              form.password.getD ""⟩] })

/-- The submit_photo handler (app.py:105-165).  `saveErr` is the
`photo_file.save` oracle and `dbErr` the `db.session.commit()` oracle
(`none` = success, `some e` = the call raises with message `e`). -/
def submit_photo (st : AppState) (form : PhotoForm)
    (saveErr : Option String) (dbErr : Option String) : Resp × AppState :=
  if !(truthy form.fullName && truthy form.vitId && truthy form.photoTitle &&
       truthy form.theme) then
    (⟨400, "Required fields are missing!"⟩, st)
  else if !pyMatchVitId (form.vitId.getD "") then
    (⟨400, "Invalid VIT ID format."⟩, st)
  else
    match form.photoFile with
    | none => (⟨400, "No photo file part in the request!"⟩, st)
    | some fname =>
      if fname == "" then
        (⟨400, "No selected photo file!"⟩, st)
      else if fname != "" && allowed_file fname then
        match saveErr with
        | some e => (⟨500, "Error saving file: " ++ e⟩, st)
        | none =>
          match dbErr with
          | some e =>
            (⟨500, "Error saving submission to database: " ++ e⟩,
             { st with
                disk := removeIfExists (saveFile st.disk (secure_filename fname))
                  (secure_filename fname) })
          | none =>
            (⟨201, "Photo submitted successfully!"⟩,
             { st with
                photos := st.photos ++
                  [⟨form.fullName.getD "", form.vitId.getD "",
                    form.photoTitle.getD "", form.theme.getD "",
                    form.description, secure_filename fname⟩],
                disk := saveFile st.disk (secure_filename fname) })
      else
        (⟨400, "Invalid file type. Only PNG, JPG, JPEG are allowed!"⟩, st)

/-! ### Field-presence predicates (Python truthiness of each required field) -/

/-- All five registration fields are present and non-empty, with the given
values. -/
@[reducible] def regFieldsOk (form : RegForm)
    (fullName vitId email password confirmPassword : String) : Prop :=
  form.fullName = some fullName ∧ fullName ≠ "" ∧
  form.vitId = some vitId ∧ vitId ≠ "" ∧
  form.email = some email ∧ email ≠ "" ∧
  form.password = some password ∧ password ≠ "" ∧
  form.confirmPassword = some confirmPassword ∧ confirmPassword ≠ ""

/-- All four required photo-submission text fields are present and
non-empty, with the given values. -/
@[reducible] def photoFieldsOk (form : PhotoForm)
    (fullName vitId photoTitle theme : String) : Prop :=
  form.fullName = some fullName ∧ fullName ≠ "" ∧
  form.vitId = some vitId ∧ vitId ≠ "" ∧
  form.photoTitle = some photoTitle ∧ photoTitle ≠ "" ∧
  form.theme = some theme ∧ theme ≠ ""

/-- Uniqueness of institutional ID and of email across the User table. -/
def UsersUnique (users : List User) : Prop :=
  List.Pairwise (fun a b => a.vit_id ≠ b.vit_id ∧ a.email ≠ b.email) users

/-! ### Helper lemmas about the sanitisation pipeline -/

theorem char_toNat_ofNat_valid (n : Nat) (h : n.isValidChar) :
    (Char.ofNat n).toNat = n := by
  simp only [Char.ofNat, dif_pos h, Char.ofNatAux, Char.toNat, UInt32.toNat,
    BitVec.toNat_ofNatLt]

theorem toLower_eq_g {c : Char} (h : Char.toLower c = 'g') : c = 'g' ∨ c = 'G' := by
  unfold Char.toLower at h
  by_cases hc : c.toNat ≥ 65 ∧ c.toNat ≤ 90
  · rw [if_pos hc] at h
    have hvalid : (c.toNat + 32).isValidChar := by
      left
      omega
    have h2 : (Char.ofNat (c.toNat + 32)).toNat = Char.toNat 'g' := by rw [h]
    rw [char_toNat_ofNat_valid _ hvalid] at h2
    have hg : Char.toNat 'g' = 103 := by decide
    have h71 : c.toNat = 71 := by omega
    right
    calc c = Char.ofNat c.toNat := (Char.ofNat_toNat c).symm
    _ = 'G' := by rw [h71]
  · rw [if_neg hc] at h
    exact Or.inl h

theorem mem_splitWsAux_of_mem_acc {c : Char} :
    ∀ (l acc : List Char), c ∈ acc → ∃ g ∈ splitWsAux acc l, c ∈ g := by
  intro l
  induction l with
  | nil =>
    intro acc hacc
    refine ⟨acc.reverse, ?_, List.mem_reverse.mpr hacc⟩
    simp [splitWsAux, List.isEmpty_iff, List.ne_nil_of_mem hacc]
  | cons a l ih =>
    intro acc hacc
    by_cases ha : isPySpace a = true
    · have hne : acc.isEmpty = false := by
        simp [List.isEmpty_iff, List.ne_nil_of_mem hacc]
      refine ⟨acc.reverse, ?_, List.mem_reverse.mpr hacc⟩
      simp [splitWsAux, ha, hne]
    · have ha' : isPySpace a = false := by simpa using ha
      have := ih (a :: acc) (List.mem_cons_of_mem a hacc)
      obtain ⟨g, hg, hcg⟩ := this
      refine ⟨g, ?_, hcg⟩
      simpa [splitWsAux, ha'] using hg

theorem mem_splitWsAux_of_mem {c : Char} (hc : isPySpace c = false) :
    ∀ (l acc : List Char), c ∈ l → ∃ g ∈ splitWsAux acc l, c ∈ g := by
  intro l
  induction l with
  | nil => intro acc h; exact absurd h (List.not_mem_nil c)
  | cons a l ih =>
    intro acc h
    by_cases hca : c = a
    · subst hca
      obtain ⟨g, hg, hcg⟩ := mem_splitWsAux_of_mem_acc l (c :: acc) (List.mem_cons_self c acc)
      refine ⟨g, ?_, hcg⟩
      simpa [splitWsAux, hc] using hg
    · have hl : c ∈ l := by
        rcases List.mem_cons.mp h with h1 | h1
        · exact absurd h1 hca
        · exact h1
      by_cases ha : isPySpace a = true
      · by_cases hacc : acc.isEmpty = true
        · obtain ⟨g, hg, hcg⟩ := ih [] hl
          refine ⟨g, ?_, hcg⟩
          simpa [splitWsAux, ha, hacc] using hg
        · have hacc' : acc.isEmpty = false := by simpa using hacc
          obtain ⟨g, hg, hcg⟩ := ih [] hl
          refine ⟨g, ?_, hcg⟩
          simp [splitWsAux, ha, hacc']
          exact Or.inr hg
      · have ha' : isPySpace a = false := by simpa using ha
        obtain ⟨g, hg, hcg⟩ := ih (a :: acc) hl
        refine ⟨g, ?_, hcg⟩
        simpa [splitWsAux, ha'] using hg

theorem mem_joinUnderscore {c : Char} :
    ∀ (gs : List (List Char)) (g : List Char), g ∈ gs → c ∈ g → c ∈ joinUnderscore gs := by
  intro gs
  induction gs with
  | nil => intro g hg _; exact absurd hg (List.not_mem_nil g)
  | cons a gs ih =>
    intro g hg hcg
    rcases List.mem_cons.mp hg with h1 | h1
    · subst h1
      cases gs with
      | nil => simpa [joinUnderscore] using hcg
      | cons b gs' =>
        simp only [joinUnderscore]
        exact List.mem_append_left _ hcg
    · cases gs with
      | nil => exact absurd h1 (List.not_mem_nil g)
      | cons b gs' =>
        simp only [joinUnderscore]
        refine List.mem_append_right _ ?_
        exact List.mem_cons_of_mem _ (ih g h1 hcg)

theorem mem_dropWhile_of_mem {α : Type} {p : α → Bool} {c : α} (hc : p c = false) :
    ∀ l : List α, c ∈ l → c ∈ l.dropWhile p := by
  intro l
  induction l with
  | nil => intro h; exact absurd h (List.not_mem_nil c)
  | cons a l ih =>
    intro h
    by_cases ha : p a = true
    · have hca : c ≠ a := by
        intro he
        rw [he, ha] at hc
        exact Bool.noConfusion hc
      have hl : c ∈ l := by
        rcases List.mem_cons.mp h with h1 | h1
        · exact absurd h1 hca
        · exact h1
      simpa [List.dropWhile, ha] using ih hl
    · have ha' : p a = false := by simpa using ha
      simpa [List.dropWhile, ha'] using h

theorem mem_dropTrailingStrip_of_mem {c : Char} (hc : isStripChar c = false) :
    ∀ l : List Char, c ∈ l → c ∈ dropTrailingStrip l := by
  intro l
  induction l with
  | nil => intro h; exact absurd h (List.not_mem_nil c)
  | cons a l ih =>
    intro h
    rcases List.mem_cons.mp h with h1 | h1
    · subst h1
      simp only [dropTrailingStrip]
      rw [if_neg]
      · exact List.mem_cons_self _ _
      · intro hand
        rw [Bool.and_eq_true, hc] at hand
        exact Bool.noConfusion hand.2
    · have hmem : c ∈ dropTrailingStrip l := ih h1
      simp only [dropTrailingStrip]
      rw [if_neg]
      · exact List.mem_cons_of_mem _ hmem
      · intro hand
        rw [Bool.and_eq_true] at hand
        rw [List.isEmpty_iff.mp hand.1] at hmem
        exact absurd hmem (List.not_mem_nil c)

theorem dropTrailingStrip_subset :
    ∀ l : List Char, ∀ c ∈ dropTrailingStrip l, c ∈ l := by
  intro l
  induction l with
  | nil => intro c h; simp [dropTrailingStrip] at h
  | cons a l ih =>
    intro c h
    simp only [dropTrailingStrip] at h
    by_cases hif : (dropTrailingStrip l).isEmpty && isStripChar a
    · rw [if_pos hif] at h
      exact absurd h (List.not_mem_nil c)
    · rw [if_neg hif] at h
      rcases List.mem_cons.mp h with h1 | h1
      · exact h1 ▸ List.mem_cons_self a l
      · exact List.mem_cons_of_mem a (ih c h1)

theorem head_dropWhile_false {α : Type} {p : α → Bool} :
    ∀ (l : List α) {a : α} {r : List α}, l.dropWhile p = a :: r → p a = false := by
  intro l
  induction l with
  | nil => intro a r h; simp [List.dropWhile] at h
  | cons x l ih =>
    intro a r h
    by_cases hx : p x = true
    · rw [List.dropWhile_cons_of_pos hx] at h
      exact ih h
    · have hx' : p x = false := by simpa using hx
      rw [List.dropWhile_cons_of_neg (by simp [hx'])] at h
      cases h
      exact hx'

theorem head_dropTrailingStrip :
    ∀ {l : List Char} {a : Char} {r : List Char},
      dropTrailingStrip l = a :: r → l.head? = some a := by
  intro l a r h
  cases l with
  | nil => simp [dropTrailingStrip] at h
  | cons x l =>
    simp only [dropTrailingStrip] at h
    by_cases hif : (dropTrailingStrip l).isEmpty && isStripChar x
    · rw [if_pos hif] at h
      exact absurd h.symm (List.cons_ne_nil a r)
    · rw [if_neg hif] at h
      cases h
      rfl

theorem data_secure_filename (s : String) :
    (secure_filename s).data =
      dropTrailingStrip
        ((joinUnderscore (splitWs ((s.data.filter isAsciiChar).map sepToSpace))).filter
            allowedFnameChar |>.dropWhile isStripChar) := rfl

theorem secure_filename_chars (s : String) :
    ∀ c ∈ (secure_filename s).data, allowedFnameChar c = true := by
  intro c hc
  rw [data_secure_filename] at hc
  have h1 := dropTrailingStrip_subset _ c hc
  have h2 := List.dropWhile_subset _ h1
  exact (List.mem_filter.mp h2).2

theorem secure_filename_head_not_strip (s : String) {a : Char} {r : List Char}
    (h : (secure_filename s).data = a :: r) : isStripChar a = false := by
  rw [data_secure_filename] at h
  have h2 := head_dropTrailingStrip h
  cases h3 : ((joinUnderscore (splitWs ((s.data.filter isAsciiChar).map sepToSpace))).filter
      allowedFnameChar).dropWhile isStripChar with
  | nil => rw [h3] at h2; exact Option.noConfusion h2
  | cons x t =>
    rw [h3] at h2
    simp only [List.head?_cons, Option.some.injEq] at h2
    subst h2
    exact head_dropWhile_false _ h3

theorem mem_data_secure_filename {c : Char} {s : String}
    (hmem : c ∈ s.data)
    (h1 : isAsciiChar c = true) (h2 : sepToSpace c = c) (h3 : isPySpace c = false)
    (h4 : allowedFnameChar c = true) (h5 : isStripChar c = false) :
    c ∈ (secure_filename s).data := by
  have m1 : c ∈ s.data.filter isAsciiChar := List.mem_filter.mpr ⟨hmem, h1⟩
  have m2 : c ∈ (s.data.filter isAsciiChar).map sepToSpace := by
    rw [← h2]
    exact List.mem_map_of_mem sepToSpace m1
  obtain ⟨g, hg, hcg⟩ := mem_splitWsAux_of_mem h3 _ [] m2
  have m3 : c ∈ joinUnderscore (splitWs ((s.data.filter isAsciiChar).map sepToSpace)) :=
    mem_joinUnderscore _ g hg hcg
  have m4 := List.mem_filter.mpr ⟨m3, h4⟩
  have m5 := mem_dropWhile_of_mem h5 _ m4
  rw [data_secure_filename]
  exact mem_dropTrailingStrip_of_mem h5 _ m5

theorem allowed_file_exists_g {s : String} (h : allowed_file s = true) :
    ∃ c ∈ s.data, Char.toLower c = 'g' := by
  unfold allowed_file at h
  rw [Bool.and_eq_true] at h
  obtain ⟨-, h2⟩ := h
  have hcases : (extAfterLastDot s.data).map Char.toLower = "png".data ∨
      (extAfterLastDot s.data).map Char.toLower = "jpg".data ∨
      (extAfterLastDot s.data).map Char.toLower = "jpeg".data := by
    simp only [ALLOWED_EXTENSIONS, List.contains_cons, List.contains_nil,
      Bool.or_false, Bool.or_eq_true, beq_iff_eq] at h2
    rcases h2 with h2 | h2 | h2
    · exact Or.inl (congrArg String.data h2)
    · exact Or.inr (Or.inl (congrArg String.data h2))
    · exact Or.inr (Or.inr (congrArg String.data h2))
  have hg : 'g' ∈ (extAfterLastDot s.data).map Char.toLower := by
    rcases hcases with h | h | h <;> rw [h] <;> decide
  obtain ⟨c, hc, hcl⟩ := List.mem_map.mp hg
  refine ⟨c, ?_, hcl⟩
  unfold extAfterLastDot at hc
  have hc2 := List.takeWhile_subset _ (List.mem_reverse.mp hc)
  exact List.mem_reverse.mp hc2

theorem secure_filename_ne_empty {s : String} (h : allowed_file s = true) :
    secure_filename s ≠ "" := by
  obtain ⟨c, hc, hg⟩ := allowed_file_exists_g h
  rcases toLower_eq_g hg with rfl | rfl
  · intro hemp
    have hmem := mem_data_secure_filename hc (by decide) (by decide) (by decide)
      (by decide) (by decide)
    rw [hemp] at hmem
    exact absurd hmem (by decide)
  · intro hemp
    have hmem := mem_data_secure_filename hc (by decide) (by decide) (by decide)
      (by decide) (by decide)
    rw [hemp] at hmem
    exact absurd hmem (by decide)

/-! ### Evaluation lemmas for the register handler -/

theorem register_pw_eq (st : AppState) (form : RegForm)
    (fullName vitId email password confirmPassword : String)
    (hok : regFieldsOk form fullName vitId email password confirmPassword)
    (hpw : password ≠ confirmPassword) (ce : Option String) :
    register st form ce = (⟨400, "Passwords do not match!"⟩, st) := by
  obtain ⟨h1, h1', h2, h2', h3, h3', h4, h4', h5, h5'⟩ := hok
  simp [register, truthy, bne_iff_ne, h1, h1', h2, h2', h3, h3', h4, h4', h5, h5', hpw]

theorem register_badvit_eq (st : AppState) (form : RegForm)
    (fullName vitId email password : String)
    (hok : regFieldsOk form fullName vitId email password password)
    (hvit : pyMatchVitId vitId = false) (ce : Option String) :
    register st form ce = (⟨400, "Invalid VIT ID format."⟩, st) := by
  obtain ⟨h1, h1', h2, h2', h3, h3', h4, h4', h5, h5'⟩ := hok
  simp [register, truthy, bne_iff_ne, h1, h1', h2, h2', h3, h3', h4, h4', h5, h5', hvit]

theorem register_dup_eq (st : AppState) (form : RegForm)
    (fullName vitId email password : String)
    (hok : regFieldsOk form fullName vitId email password password)
    (hvit : pyMatchVitId vitId = true)
    (hdup : (st.users.any (fun u => u.vit_id == vitId) ||
             st.users.any (fun u => u.email == email)) = true) (ce : Option String) :
    register st form ce =
      (⟨409, "User with this VIT ID or Email already exists!"⟩, st) := by
  obtain ⟨h1, h1', h2, h2', h3, h3', h4, h4', h5, h5'⟩ := hok
  simp [register, truthy, bne_iff_ne, h1, h1', h2, h2', h3, h3', h4, h4', h5, h5', hvit, hdup]

theorem register_success_eq (st : AppState) (form : RegForm)
    (fullName vitId email password : String)
    (hok : regFieldsOk form fullName vitId email password password)
    (hvit : pyMatchVitId vitId = true)
    (hfresh : st.users.any (fun u => u.vit_id == vitId) = false)
    (hfresh2 : st.users.any (fun u => u.email == email) = false) :
    register st form none =
      (⟨201, "Registration successful!"⟩,
       { st with users := st.users ++ [⟨fullName, vitId, email, password⟩] }) := by
  obtain ⟨h1, h1', h2, h2', h3, h3', h4, h4', h5, h5'⟩ := hok
  simp [register, truthy, bne_iff_ne, h1, h1', h2, h2', h3, h3', h4, h4', h5, h5', hvit,
    hfresh, hfresh2]

theorem register_commitfail_eq (st : AppState) (form : RegForm)
    (fullName vitId email password e : String)
    (hok : regFieldsOk form fullName vitId email password password)
    (hvit : pyMatchVitId vitId = true)
    (hfresh : st.users.any (fun u => u.vit_id == vitId) = false)
    (hfresh2 : st.users.any (fun u => u.email == email) = false) :
    register st form (some e) =
      (⟨500, "Error registering user: " ++ e⟩, st) := by
  obtain ⟨h1, h1', h2, h2', h3, h3', h4, h4', h5, h5'⟩ := hok
  simp [register, truthy, bne_iff_ne, h1, h1', h2, h2', h3, h3', h4, h4', h5, h5', hvit,
    hfresh, hfresh2]

theorem register_not_invalid_of_match (st : AppState) (form : RegForm)
    (fullName vitId email password : String)
    (hok : regFieldsOk form fullName vitId email password password)
    (hvit : pyMatchVitId vitId = true) (ce : Option String) :
    (register st form ce).1 ≠ ⟨400, "Invalid VIT ID format."⟩ := by
  by_cases hdup : (st.users.any (fun u => u.vit_id == vitId) ||
      st.users.any (fun u => u.email == email)) = true
  · rw [register_dup_eq st form fullName vitId email password hok hvit hdup ce]
    simp
  · rw [Bool.or_eq_true, not_or] at hdup
    have hf1 : st.users.any (fun u => u.vit_id == vitId) = false :=
      Bool.not_eq_true _ ▸ Bool.eq_false_iff.mpr (fun h => hdup.1 h)
    have hf2 : st.users.any (fun u => u.email == email) = false :=
      Bool.eq_false_iff.mpr (fun h => hdup.2 h)
    cases ce with
    | none =>
      rw [register_success_eq st form fullName vitId email password hok hvit hf1 hf2]
      simp
    | some e =>
      rw [register_commitfail_eq st form fullName vitId email password e hok hvit hf1 hf2]
      simp

/-! ### Evaluation lemmas for the submit_photo handler -/

theorem submit_badvit_eq (st : AppState) (form : PhotoForm)
    (fullName vitId photoTitle theme : String)
    (hok : photoFieldsOk form fullName vitId photoTitle theme)
    (hvit : pyMatchVitId vitId = false) (se de : Option String) :
    submit_photo st form se de = (⟨400, "Invalid VIT ID format."⟩, st) := by
  obtain ⟨h1, h1', h2, h2', h3, h3', h4, h4'⟩ := hok
  simp [submit_photo, truthy, bne_iff_ne, h1, h1', h2, h2', h3, h3', h4, h4', hvit]

theorem submit_nofile_eq (st : AppState) (form : PhotoForm)
    (fullName vitId photoTitle theme : String)
    (hok : photoFieldsOk form fullName vitId photoTitle theme)
    (hvit : pyMatchVitId vitId = true)
    (hfile : form.photoFile = none) (se de : Option String) :
    submit_photo st form se de =
      (⟨400, "No photo file part in the request!"⟩, st) := by
  obtain ⟨h1, h1', h2, h2', h3, h3', h4, h4'⟩ := hok
  simp [submit_photo, truthy, bne_iff_ne, h1, h1', h2, h2', h3, h3', h4, h4', hvit, hfile]

theorem submit_emptyname_eq (st : AppState) (form : PhotoForm)
    (fullName vitId photoTitle theme : String)
    (hok : photoFieldsOk form fullName vitId photoTitle theme)
    (hvit : pyMatchVitId vitId = true)
    (hfile : form.photoFile = some "") (se de : Option String) :
    submit_photo st form se de = (⟨400, "No selected photo file!"⟩, st) := by
  obtain ⟨h1, h1', h2, h2', h3, h3', h4, h4'⟩ := hok
  simp [submit_photo, truthy, bne_iff_ne, h1, h1', h2, h2', h3, h3', h4, h4', hvit, hfile]

theorem submit_badext_eq (st : AppState) (form : PhotoForm)
    (fullName vitId photoTitle theme fname : String)
    (hok : photoFieldsOk form fullName vitId photoTitle theme)
    (hvit : pyMatchVitId vitId = true)
    (hfile : form.photoFile = some fname) (hfn : fname ≠ "")
    (hext : allowed_file fname = false) (se de : Option String) :
    submit_photo st form se de =
      (⟨400, "Invalid file type. Only PNG, JPG, JPEG are allowed!"⟩, st) := by
  obtain ⟨h1, h1', h2, h2', h3, h3', h4, h4'⟩ := hok
  simp [submit_photo, truthy, bne_iff_ne, h1, h1', h2, h2', h3, h3', h4, h4', hvit, hfile,
    hfn, hext]

theorem submit_savefail_eq (st : AppState) (form : PhotoForm)
    (fullName vitId photoTitle theme fname e : String)
    (hok : photoFieldsOk form fullName vitId photoTitle theme)
    (hvit : pyMatchVitId vitId = true)
    (hfile : form.photoFile = some fname) (hfn : fname ≠ "")
    (hext : allowed_file fname = true) (de : Option String) :
    submit_photo st form (some e) de =
      (⟨500, "Error saving file: " ++ e⟩, st) := by
  obtain ⟨h1, h1', h2, h2', h3, h3', h4, h4'⟩ := hok
  simp [submit_photo, truthy, bne_iff_ne, h1, h1', h2, h2', h3, h3', h4, h4', hvit, hfile,
    hfn, hext]

theorem submit_dbfail_eq (st : AppState) (form : PhotoForm)
    (fullName vitId photoTitle theme fname e : String)
    (hok : photoFieldsOk form fullName vitId photoTitle theme)
    (hvit : pyMatchVitId vitId = true)
    (hfile : form.photoFile = some fname) (hfn : fname ≠ "")
    (hext : allowed_file fname = true) :
    submit_photo st form none (some e) =
      (⟨500, "Error saving submission to database: " ++ e⟩,
       { st with
          disk := removeIfExists (saveFile st.disk (secure_filename fname))
            (secure_filename fname) }) := by
  obtain ⟨h1, h1', h2, h2', h3, h3', h4, h4'⟩ := hok
  simp [submit_photo, truthy, bne_iff_ne, h1, h1', h2, h2', h3, h3', h4, h4', hvit, hfile,
    hfn, hext]

theorem submit_success_eq (st : AppState) (form : PhotoForm)
    (fullName vitId photoTitle theme fname : String)
    (hok : photoFieldsOk form fullName vitId photoTitle theme)
    (hvit : pyMatchVitId vitId = true)
    (hfile : form.photoFile = some fname) (hfn : fname ≠ "")
    (hext : allowed_file fname = true) :
    submit_photo st form none none =
      (⟨201, "Photo submitted successfully!"⟩,
       { st with
          photos := st.photos ++
            [⟨fullName, vitId, photoTitle, theme, form.description,
              secure_filename fname⟩],
          disk := saveFile st.disk (secure_filename fname) }) := by
  obtain ⟨h1, h1', h2, h2', h3, h3', h4, h4'⟩ := hok
  simp [submit_photo, truthy, bne_iff_ne, h1, h1', h2, h2', h3, h3', h4, h4', hvit, hfile,
    hfn, hext]

theorem submit_not_invalid_of_match (st : AppState) (form : PhotoForm)
    (fullName vitId photoTitle theme : String)
    (hok : photoFieldsOk form fullName vitId photoTitle theme)
    (hvit : pyMatchVitId vitId = true) (se de : Option String) :
    (submit_photo st form se de).1 ≠ ⟨400, "Invalid VIT ID format."⟩ := by
  cases hfile : form.photoFile with
  | none =>
    rw [submit_nofile_eq st form fullName vitId photoTitle theme hok hvit hfile se de]
    simp
  | some fname =>
    by_cases hfn : fname = ""
    · subst hfn
      rw [submit_emptyname_eq st form fullName vitId photoTitle theme hok hvit hfile se de]
      simp
    · by_cases hext : allowed_file fname = true
      · cases se with
        | some e =>
          rw [submit_savefail_eq st form fullName vitId photoTitle theme fname e hok hvit
            hfile hfn hext de]
          simp
        | none =>
          cases de with
          | some e =>
            rw [submit_dbfail_eq st form fullName vitId photoTitle theme fname e hok hvit
              hfile hfn hext]
            simp
          | none =>
            rw [submit_success_eq st form fullName vitId photoTitle theme fname hok hvit
              hfile hfn hext]
            simp
      · have hext' : allowed_file fname = false := by simpa using hext
        rw [submit_badext_eq st form fullName vitId photoTitle theme fname hok hvit hfile
          hfn hext' se de]
        simp

/-- The file just written is absent from the disk after the compensation
step. -/
theorem not_mem_removeIfExists (l : List String) (f : String) :
    f ∉ removeIfExists l f := by
  unfold removeIfExists
  split
  · intro h
    have h2 := (List.mem_filter.mp h).2
    simp at h2
  · next hcon =>
    intro h
    exact hcon (List.elem_eq_true_of_mem h)

/-- Every branch of register either leaves the User table unchanged or
appends one row whose vit_id and email were absent. -/
theorem register_preserves_unique (st : AppState) (form : RegForm)
    (ce : Option String) (h : UsersUnique st.users) :
    UsersUnique (register st form ce).2.users := by
  unfold register
  split
  · exact h
  · split
    · exact h
    · split
      · exact h
      · split
        · exact h
        · next hdup =>
          cases ce with
          | some e => exact h
          | none =>
            rw [Bool.or_eq_true, not_or] at hdup
            have hf1 : ∀ u ∈ st.users, u.vit_id ≠ form.vitId.getD "" := by
              intro u hu heq
              exact hdup.1 (List.any_eq_true.mpr ⟨u, hu, beq_iff_eq.mpr heq⟩)
            have hf2 : ∀ u ∈ st.users, u.email ≠ form.email.getD "" := by
              intro u hu heq
              exact hdup.2 (List.any_eq_true.mpr ⟨u, hu, beq_iff_eq.mpr heq⟩)
            unfold UsersUnique
            rw [List.pairwise_append]
            refine ⟨h, List.pairwise_singleton _ _, ?_⟩
            intro a ha b hb
            rw [List.mem_singleton] at hb
            subst hb
            exact ⟨hf1 a ha, hf2 a ha⟩

/-! ### Claim theorems -/

/-- C1: for every photo-submission request that passes all validation
(fields present, vitId passing the format check, file part present with a
non-empty allowed filename) and whose file save succeeds, if the
subsequent database insert fails the handler returns 500, rolls back the
session (the PhotoSubmission table is unchanged) and deletes the
just-written file, which does not remain on disk. -/
theorem c1_dbfail_deletes_file (st : AppState) (form : PhotoForm)
    (fullName vitId photoTitle theme fname e : String)
    (hok : photoFieldsOk form fullName vitId photoTitle theme)
    (hvit : pyMatchVitId vitId = true)
    (hfile : form.photoFile = some fname) (hfn : fname ≠ "")
    (hext : allowed_file fname = true) :
    (submit_photo st form none (some e)).1 =
      ⟨500, "Error saving submission to database: " ++ e⟩ ∧
    (submit_photo st form none (some e)).2.photos = st.photos ∧
    (submit_photo st form none (some e)).2.users = st.users ∧
    secure_filename fname ∉ (submit_photo st form none (some e)).2.disk := by
  have heq := submit_dbfail_eq st form fullName vitId photoTitle theme fname e hok hvit
    hfile hfn hext
  rw [heq]
  exact ⟨rfl, rfl, rfl, not_mem_removeIfExists _ _⟩

/-- C1 witness at a concrete request. -/
theorem c1_witness :
    (submit_photo ⟨[], [], []⟩
        ⟨some "A", some "23ABC1234", some "T", some "Nature", none, some "pic.png"⟩
        none (some "db down")).1 =
      ⟨500, "Error saving submission to database: " ++ "db down"⟩ ∧
    (submit_photo ⟨[], [], []⟩
        ⟨some "A", some "23ABC1234", some "T", some "Nature", none, some "pic.png"⟩
        none (some "db down")).2.photos = [] ∧
    (submit_photo ⟨[], [], []⟩
        ⟨some "A", some "23ABC1234", some "T", some "Nature", none, some "pic.png"⟩
        none (some "db down")).2.users = [] ∧
    secure_filename "pic.png" ∉
      (submit_photo ⟨[], [], []⟩
        ⟨some "A", some "23ABC1234", some "T", some "Nature", none, some "pic.png"⟩
        none (some "db down")).2.disk :=
  c1_dbfail_deletes_file ⟨[], [], []⟩
    ⟨some "A", some "23ABC1234", some "T", some "Nature", none, some "pic.png"⟩
    "A" "23ABC1234" "T" "Nature" "pic.png" "db down"
    (by decide) (by decide) rfl (by decide) (by decide)

/-- C2: a registration request with all five fields present, password
equal to confirmPassword, a vitId passing the institutional-ID check and
a vitId and email held by no stored User returns 201 and appends exactly
one User row holding exactly the submitted full name, vitId, email and
plaintext password. -/
theorem c2_register_success (st : AppState) (form : RegForm)
    (fullName vitId email password : String)
    (hok : regFieldsOk form fullName vitId email password password)
    (hvit : pyMatchVitId vitId = true)
    (hfresh : st.users.any (fun u => u.vit_id == vitId) = false)
    (hfresh2 : st.users.any (fun u => u.email == email) = false) :
    register st form none =
      (⟨201, "Registration successful!"⟩,
       { st with users := st.users ++ [⟨fullName, vitId, email, password⟩] }) :=
  register_success_eq st form fullName vitId email password hok hvit hfresh hfresh2

/-- C2 witness at a concrete request. -/
theorem c2_witness :
    register ⟨[], [], []⟩
        ⟨some "Alice", some "23ABC1234", some "a@x.com", some "pw", some "pw"⟩ none =
      (⟨201, "Registration successful!"⟩,
       ⟨[⟨"Alice", "23ABC1234", "a@x.com", "pw"⟩], [], []⟩) :=
  c2_register_success ⟨[], [], []⟩
    ⟨some "Alice", some "23ABC1234", some "a@x.com", some "pw", some "pw"⟩
    "Alice" "23ABC1234" "a@x.com" "pw" (by decide) (by decide) (by decide) (by decide)

/-- C7: a registration request with all five fields present but password
different from confirmPassword returns 400 and leaves the state (hence
the User table) unchanged. -/
theorem c7_pw_mismatch (st : AppState) (form : RegForm)
    (fullName vitId email password confirmPassword : String) (ce : Option String)
    (hok : regFieldsOk form fullName vitId email password confirmPassword)
    (hpw : password ≠ confirmPassword) :
    register st form ce = (⟨400, "Passwords do not match!"⟩, st) :=
  register_pw_eq st form fullName vitId email password confirmPassword hok hpw ce

/-- C7 witness at a concrete request. -/
theorem c7_witness :
    register ⟨[], [], []⟩
        ⟨some "Alice", some "23ABC1234", some "a@x.com", some "pw", some "other"⟩ none =
      (⟨400, "Passwords do not match!"⟩, ⟨[], [], []⟩) :=
  c7_pw_mismatch ⟨[], [], []⟩
    ⟨some "Alice", some "23ABC1234", some "a@x.com", some "pw", some "other"⟩
    "Alice" "23ABC1234" "a@x.com" "pw" "other" none (by decide) (by decide)

/-- C10: for every photo-submission request that passes all validation,
if saving the file to disk fails the handler returns 500 immediately and
the whole state — in particular the PhotoSubmission table — is unchanged;
no compensation runs and the database oracle is never consulted (the
conclusion holds for every `de`). -/
theorem c10_savefail_no_row (st : AppState) (form : PhotoForm)
    (fullName vitId photoTitle theme fname e : String) (de : Option String)
    (hok : photoFieldsOk form fullName vitId photoTitle theme)
    (hvit : pyMatchVitId vitId = true)
    (hfile : form.photoFile = some fname) (hfn : fname ≠ "")
    (hext : allowed_file fname = true) :
    submit_photo st form (some e) de = (⟨500, "Error saving file: " ++ e⟩, st) :=
  submit_savefail_eq st form fullName vitId photoTitle theme fname e hok hvit hfile
    hfn hext de

/-- C10 witness at a concrete request. -/
theorem c10_witness :
    submit_photo ⟨[], [], []⟩
        ⟨some "A", some "23ABC1234", some "T", some "Nature", none, some "pic.png"⟩
        (some "disk full") none =
      (⟨500, "Error saving file: " ++ "disk full"⟩, ⟨[], [], []⟩) :=
  c10_savefail_no_row ⟨[], [], []⟩
    ⟨some "A", some "23ABC1234", some "T", some "Nature", none, some "pic.png"⟩
    "A" "23ABC1234" "T" "Nature" "pic.png" "disk full" none
    (by decide) (by decide) rfl (by decide) (by decide)

/-- C3 counterexample: a registration request whose vitId equals that of
a stored User but whose passwords mismatch returns 400, not 409 — the
duplicate check only runs after the presence, password and format checks,
so the claim as universally stated fails. -/
theorem c3_counterexample :
    ((⟨[⟨"Alice", "23ABC1234", "a@x.com", "pw"⟩], [], []⟩ : AppState).users.any
        (fun u => u.vit_id == "23ABC1234")) = true ∧
    (register ⟨[⟨"Alice", "23ABC1234", "a@x.com", "pw"⟩], [], []⟩
        ⟨some "Bob", some "23ABC1234", some "b@x.com", some "pw", some "other"⟩ none).1 =
      ⟨400, "Passwords do not match!"⟩ := by
  decide

/-- C3 (amended): uniqueness of vitId and email is an invariant preserved
by register; a registration request passing the presence, password and
format checks whose vitId or email is already stored returns 409 and
leaves the state unchanged; and registering twice with the same data
(second attempt otherwise valid) leaves exactly one User row. -/
theorem c3_uniqueness_invariant :
    (∀ (st : AppState) (form : RegForm) (ce : Option String),
      UsersUnique st.users → UsersUnique (register st form ce).2.users) ∧
    (∀ (st : AppState) (form : RegForm) (ce : Option String)
       (fullName vitId email password : String),
      regFieldsOk form fullName vitId email password password →
      pyMatchVitId vitId = true →
      (st.users.any (fun u => u.vit_id == vitId) ||
       st.users.any (fun u => u.email == email)) = true →
      register st form ce =
        (⟨409, "User with this VIT ID or Email already exists!"⟩, st)) ∧
    (∀ (form : RegForm) (fullName vitId email password : String),
      regFieldsOk form fullName vitId email password password →
      pyMatchVitId vitId = true →
      (register (register ⟨[], [], []⟩ form none).2 form none).2.users.length = 1) := by
  refine ⟨register_preserves_unique, ?_, ?_⟩
  · intro st form ce fullName vitId email password hok hvit hdup
    exact register_dup_eq st form fullName vitId email password hok hvit hdup ce
  · intro form fullName vitId email password hok hvit
    have h1 := register_success_eq ⟨[], [], []⟩ form fullName vitId email password hok
      hvit rfl rfl
    rw [h1]
    rw [register_dup_eq
      { (⟨[], [], []⟩ : AppState) with
          users := ([] : List User) ++ [⟨fullName, vitId, email, password⟩] }
      form fullName vitId email password hok hvit (by simp) none]
    simp

/-- C3 witness at concrete requests. -/
theorem c3_witness :
    register ⟨[⟨"Alice", "23ABC1234", "a@x.com", "pw"⟩], [], []⟩
        ⟨some "Bob", some "23ABC1234", some "b@x.com", some "pw", some "pw"⟩ none =
      (⟨409, "User with this VIT ID or Email already exists!"⟩,
       ⟨[⟨"Alice", "23ABC1234", "a@x.com", "pw"⟩], [], []⟩) ∧
    UsersUnique (register ⟨[⟨"Alice", "23ABC1234", "a@x.com", "pw"⟩], [], []⟩
        ⟨some "Bob", some "23ABC1234", some "b@x.com", some "pw", some "pw"⟩ none).2.users ∧
    (register (register ⟨[], [], []⟩
        ⟨some "Alice", some "23ABC1234", some "a@x.com", some "pw", some "pw"⟩ none).2
      ⟨some "Alice", some "23ABC1234", some "a@x.com", some "pw", some "pw"⟩ none).2.users.length = 1 := by
  refine ⟨?_, ?_, ?_⟩
  · exact c3_uniqueness_invariant.2.1 ⟨[⟨"Alice", "23ABC1234", "a@x.com", "pw"⟩], [], []⟩
      ⟨some "Bob", some "23ABC1234", some "b@x.com", some "pw", some "pw"⟩ none
      "Bob" "23ABC1234" "b@x.com" "pw" (by decide) (by decide) (by decide)
  · exact c3_uniqueness_invariant.1 ⟨[⟨"Alice", "23ABC1234", "a@x.com", "pw"⟩], [], []⟩
      ⟨some "Bob", some "23ABC1234", some "b@x.com", some "pw", some "pw"⟩ none
      (by simp [UsersUnique])
  · exact c3_uniqueness_invariant.2.2
      ⟨some "Alice", some "23ABC1234", some "a@x.com", some "pw", some "pw"⟩
      "Alice" "23ABC1234" "a@x.com" "pw" (by decide) (by decide)

/-- C4 counterexample: Python re.match with a trailing `$` also accepts
the 9-character core followed by one newline, so the vitId
`"23ABC1234\n"`, which is not "2 digits, 3 uppercase letters, 4 digits
and nothing else", is nevertheless not rejected: an otherwise valid
registration with it returns 201, not 400. -/
theorem c4_counterexample :
    specExactVitId "23ABC1234\n" = false ∧
    (register ⟨[], [], []⟩
        ⟨some "Alice", some "23ABC1234\n", some "a@x.com", some "pw", some "pw"⟩ none).1 =
      ⟨201, "Registration successful!"⟩ := by
  decide

/-- C4 (amended): with the earlier checks passed, both handlers return
the 400 invalid-ID response exactly when the submitted vitId fails
the Python `re.match` of the pattern, whose `$` also accepts a single
trailing newline after the 9-character core; "abc123" is rejected while
"23ABC1234\n" is accepted. -/
theorem c4_invalid_id_iff :
    (∀ (st : AppState) (form : RegForm) (ce : Option String)
       (fullName vitId email password : String),
      regFieldsOk form fullName vitId email password password →
      ((register st form ce).1 = ⟨400, "Invalid VIT ID format."⟩ ↔
        pyMatchVitId vitId = false)) ∧
    (∀ (st : AppState) (form : PhotoForm) (se de : Option String)
       (fullName vitId photoTitle theme : String),
      photoFieldsOk form fullName vitId photoTitle theme →
      ((submit_photo st form se de).1 = ⟨400, "Invalid VIT ID format."⟩ ↔
        pyMatchVitId vitId = false)) ∧
    pyMatchVitId "abc123" = false ∧ pyMatchVitId "23ABC1234\n" = true := by
  refine ⟨?_, ?_, by decide, by decide⟩
  · intro st form ce fullName vitId email password hok
    constructor
    · intro h
      by_cases hv : pyMatchVitId vitId = true
      · exact absurd h
          (register_not_invalid_of_match st form fullName vitId email password hok hv ce)
      · simpa using hv
    · intro hv
      rw [register_badvit_eq st form fullName vitId email password hok hv ce]
  · intro st form se de fullName vitId photoTitle theme hok
    constructor
    · intro h
      by_cases hv : pyMatchVitId vitId = true
      · exact absurd h
          (submit_not_invalid_of_match st form fullName vitId photoTitle theme hok hv se de)
      · simpa using hv
    · intro hv
      rw [submit_badvit_eq st form fullName vitId photoTitle theme hok hv se de]

/-- C4 witness at concrete requests with vitId "abc123". -/
theorem c4_witness :
    (register ⟨[], [], []⟩
        ⟨some "Alice", some "abc123", some "a@x.com", some "pw", some "pw"⟩ none).1 =
      ⟨400, "Invalid VIT ID format."⟩ ∧
    (submit_photo ⟨[], [], []⟩
        ⟨some "A", some "abc123", some "T", some "Nature", none, some "pic.png"⟩
        none none).1 =
      ⟨400, "Invalid VIT ID format."⟩ := by
  constructor
  · exact (c4_invalid_id_iff.1 ⟨[], [], []⟩
      ⟨some "Alice", some "abc123", some "a@x.com", some "pw", some "pw"⟩ none
      "Alice" "abc123" "a@x.com" "pw" (by decide)).mpr (by decide)
  · exact (c4_invalid_id_iff.2.1 ⟨[], [], []⟩
      ⟨some "A", some "abc123", some "T", some "Nature", none, some "pic.png"⟩ none none
      "A" "abc123" "T" "Nature" (by decide)).mpr (by decide)

/-- C5: with the earlier checks passed and a non-empty filename, the file
is accepted exactly when allowed_file holds (the filename contains a dot
and the lowercased substring after the last dot is png, jpg or jpeg);
when it fails the handler returns 400 with the state — disk and both
tables — unchanged. -/
theorem c5_extension_gate (st : AppState) (form : PhotoForm)
    (fullName vitId photoTitle theme fname : String) (se de : Option String)
    (hok : photoFieldsOk form fullName vitId photoTitle theme)
    (hvit : pyMatchVitId vitId = true)
    (hfile : form.photoFile = some fname) (hfn : fname ≠ "") :
    (allowed_file fname = false →
      submit_photo st form se de =
        (⟨400, "Invalid file type. Only PNG, JPG, JPEG are allowed!"⟩, st)) ∧
    (allowed_file fname = true →
      (submit_photo st form none none).1 = ⟨201, "Photo submitted successfully!"⟩) := by
  constructor
  · intro hext
    exact submit_badext_eq st form fullName vitId photoTitle theme fname hok hvit hfile
      hfn hext se de
  · intro hext
    rw [submit_success_eq st form fullName vitId photoTitle theme fname hok hvit hfile
      hfn hext]

/-- C5 witness: "photo.gif" is rejected with no state change, while
"photo.jpg" is accepted. -/
theorem c5_witness :
    submit_photo ⟨[], [], []⟩
        ⟨some "A", some "23ABC1234", some "T", some "Nature", none, some "photo.gif"⟩
        none none =
      (⟨400, "Invalid file type. Only PNG, JPG, JPEG are allowed!"⟩, ⟨[], [], []⟩) ∧
    (submit_photo ⟨[], [], []⟩
        ⟨some "A", some "23ABC1234", some "T", some "Nature", none, some "photo.jpg"⟩
        none none).1 = ⟨201, "Photo submitted successfully!"⟩ := by
  constructor
  · exact (c5_extension_gate ⟨[], [], []⟩
      ⟨some "A", some "23ABC1234", some "T", some "Nature", none, some "photo.gif"⟩
      "A" "23ABC1234" "T" "Nature" "photo.gif" none none
      (by decide) (by decide) rfl (by decide)).1 (by decide)
  · exact (c5_extension_gate ⟨[], [], []⟩
      ⟨some "A", some "23ABC1234", some "T", some "Nature", none, some "photo.jpg"⟩
      "A" "23ABC1234" "T" "Nature" "photo.jpg" none none
      (by decide) (by decide) rfl (by decide)).2 (by decide)

/-- C6: with the required text fields present and a valid vitId, a
missing photoFile part or a file part with an empty filename (the way a
form with no selected file arrives) yields 400 with the state — disk and
both tables — unchanged. -/
theorem c6_missing_or_empty_file (st : AppState) (form : PhotoForm)
    (fullName vitId photoTitle theme : String) (se de : Option String)
    (hok : photoFieldsOk form fullName vitId photoTitle theme)
    (hvit : pyMatchVitId vitId = true)
    (h : form.photoFile = none ∨ form.photoFile = some "") :
    (submit_photo st form se de).1.status = 400 ∧
    (submit_photo st form se de).2 = st := by
  rcases h with h | h
  · rw [submit_nofile_eq st form fullName vitId photoTitle theme hok hvit h se de]
    exact ⟨rfl, rfl⟩
  · rw [submit_emptyname_eq st form fullName vitId photoTitle theme hok hvit h se de]
    exact ⟨rfl, rfl⟩

/-- C6 witness: missing file part, and empty-filename file part. -/
theorem c6_witness :
    (submit_photo ⟨[], [], []⟩
        ⟨some "A", some "23ABC1234", some "T", some "Nature", none, none⟩ none none).1.status =
      400 ∧
    (submit_photo ⟨[], [], []⟩
        ⟨some "A", some "23ABC1234", some "T", some "Nature", none, none⟩ none none).2 =
      ⟨[], [], []⟩ ∧
    (submit_photo ⟨[], [], []⟩
        ⟨some "A", some "23ABC1234", some "T", some "Nature", none, some ""⟩ none none).1.status =
      400 ∧
    (submit_photo ⟨[], [], []⟩
        ⟨some "A", some "23ABC1234", some "T", some "Nature", none, some ""⟩ none none).2 =
      ⟨[], [], []⟩ := by
  have h1 := c6_missing_or_empty_file ⟨[], [], []⟩
    ⟨some "A", some "23ABC1234", some "T", some "Nature", none, none⟩
    "A" "23ABC1234" "T" "Nature" none none (by decide) (by decide) (Or.inl rfl)
  have h2 := c6_missing_or_empty_file ⟨[], [], []⟩
    ⟨some "A", some "23ABC1234", some "T", some "Nature", none, some ""⟩
    "A" "23ABC1234" "T" "Nature" none none (by decide) (by decide) (Or.inr rfl)
  exact ⟨h1.1, h1.2, h2.1, h2.2⟩

/-- C8: an accepted submission saves the file and stores in
photo_filename exactly `secure_filename` of the client-supplied name; the
sanitized name is non-empty, contains only characters from
`[A-Za-z0-9_.-]` — in particular no path separator — and does not begin
with a dot, so it is neither "." nor ".." and the file lies directly
inside the fixed upload directory. -/
theorem c8_sanitized_filename (st : AppState) (form : PhotoForm)
    (fullName vitId photoTitle theme fname : String)
    (hok : photoFieldsOk form fullName vitId photoTitle theme)
    (hvit : pyMatchVitId vitId = true)
    (hfile : form.photoFile = some fname) (hfn : fname ≠ "")
    (hext : allowed_file fname = true) :
    submit_photo st form none none =
      (⟨201, "Photo submitted successfully!"⟩,
       { st with
          photos := st.photos ++
            [⟨fullName, vitId, photoTitle, theme, form.description,
              secure_filename fname⟩],
          disk := saveFile st.disk (secure_filename fname) }) ∧
    secure_filename fname ≠ "" ∧
    (∀ c ∈ (secure_filename fname).data, allowedFnameChar c = true) ∧
    '/' ∉ (secure_filename fname).data ∧
    (secure_filename fname).data.head? ≠ some '.' ∧
    secure_filename fname ≠ "." ∧ secure_filename fname ≠ ".." := by
  have hhead : (secure_filename fname).data.head? ≠ some '.' := by
    cases hd : (secure_filename fname).data with
    | nil => simp
    | cons a r =>
      have hstrip := secure_filename_head_not_strip fname hd
      simp only [List.head?_cons, ne_eq, Option.some.injEq]
      intro ha
      subst ha
      exact absurd hstrip (by decide)
  refine ⟨submit_success_eq st form fullName vitId photoTitle theme fname hok hvit hfile
      hfn hext,
    secure_filename_ne_empty hext, secure_filename_chars fname, ?_, hhead, ?_, ?_⟩
  · intro h
    exact absurd (secure_filename_chars fname '/' h) (by decide)
  · intro h
    rw [h] at hhead
    exact hhead (by decide)
  · intro h
    rw [h] at hhead
    exact hhead (by decide)

/-- C8 witness: a path-traversal filename with a space is sanitized to a
safe name inside the upload directory. -/
theorem c8_witness :
    submit_photo ⟨[], [], []⟩
        ⟨some "A", some "23ABC1234", some "T", some "Nature", none,
         some "../secret/my photo.PNG"⟩ none none =
      (⟨201, "Photo submitted successfully!"⟩,
       ⟨[], [⟨"A", "23ABC1234", "T", "Nature", none,
              secure_filename "../secret/my photo.PNG"⟩],
        saveFile [] (secure_filename "../secret/my photo.PNG")⟩) ∧
    secure_filename "../secret/my photo.PNG" ≠ "" ∧
    '/' ∉ (secure_filename "../secret/my photo.PNG").data ∧
    secure_filename "../secret/my photo.PNG" ≠ "." ∧
    secure_filename "../secret/my photo.PNG" ≠ ".." := by
  have h := c8_sanitized_filename ⟨[], [], []⟩
    ⟨some "A", some "23ABC1234", some "T", some "Nature", none,
     some "../secret/my photo.PNG"⟩
    "A" "23ABC1234" "T" "Nature" "../secret/my photo.PNG"
    (by decide) (by decide) rfl (by decide) (by decide)
  exact ⟨h.1, h.2.1, h.2.2.2.1, h.2.2.2.2.2.1, h.2.2.2.2.2.2⟩

/-- C9: photo submission never consults the User table: for a request
passing field, ID-format and file validation, the handler returns 201
and appends the PhotoSubmission row for EVERY contents of the User table
— in particular whether or not some registered User has the submitted
vitId — and leaves the User table itself untouched. -/
theorem c9_no_user_dependence (photos : List PhotoSubmission) (disk : List String)
    (form : PhotoForm) (fullName vitId photoTitle theme fname : String)
    (hok : photoFieldsOk form fullName vitId photoTitle theme)
    (hvit : pyMatchVitId vitId = true)
    (hfile : form.photoFile = some fname) (hfn : fname ≠ "")
    (hext : allowed_file fname = true) :
    ∀ users : List User,
      submit_photo ⟨users, photos, disk⟩ form none none =
        (⟨201, "Photo submitted successfully!"⟩,
         ⟨users,
          photos ++
            [⟨fullName, vitId, photoTitle, theme, form.description,
              secure_filename fname⟩],
          saveFile disk (secure_filename fname)⟩) := by
  intro users
  exact submit_success_eq ⟨users, photos, disk⟩ form fullName vitId photoTitle theme
    fname hok hvit hfile hfn hext

/-- C9 witness: the same submission succeeds identically with an empty
User table and with a User table that does contain the submitted vitId. -/
theorem c9_witness :
    submit_photo ⟨[], [], []⟩
        ⟨some "A", some "23ABC1234", some "T", some "Nature", none, some "pic.png"⟩
        none none =
      (⟨201, "Photo submitted successfully!"⟩,
       ⟨[], [⟨"A", "23ABC1234", "T", "Nature", none, secure_filename "pic.png"⟩],
        saveFile [] (secure_filename "pic.png")⟩) ∧
    submit_photo ⟨[⟨"Bob", "23ABC1234", "b@x.com", "pw"⟩], [], []⟩
        ⟨some "A", some "23ABC1234", some "T", some "Nature", none, some "pic.png"⟩
        none none =
      (⟨201, "Photo submitted successfully!"⟩,
       ⟨[⟨"Bob", "23ABC1234", "b@x.com", "pw"⟩],
        [⟨"A", "23ABC1234", "T", "Nature", none, secure_filename "pic.png"⟩],
        saveFile [] (secure_filename "pic.png")⟩) := by
  have h := c9_no_user_dependence [] []
    ⟨some "A", some "23ABC1234", some "T", some "Nature", none, some "pic.png"⟩
    "A" "23ABC1234" "T" "Nature" "pic.png" (by decide) (by decide) rfl (by decide)
    (by decide)
  exact ⟨h [], h [⟨"Bob", "23ABC1234", "b@x.com", "pw"⟩]⟩

end NssLens
